import Mathlib

set_option autoImplicit false

/-!
Verification of the real-time task-update subsystem of the
AI-Agent-Frontend repository.

The embedding models the two source files the claims are about:

* `src/services/websocket.ts` — class `WebSocketService`, an event-driven
  manager of per-task WebSocket channels with exponential-backoff
  reconnection and a polling fallback;
* `src/services/api.ts` — `ApiService.updateTaskInHistory`, the
  localStorage write-through used by the dispatcher.

The service is stateful and driven by browser callbacks (`onopen`,
`onmessage`, `onclose`, `onerror`), by `setTimeout` reconnect timers and
`setInterval` polling timers, and by user calls
(`connectToTask`, `disconnect`, `disconnectAll`).  We embed it as an
explicit state record `WSState` together with a total step function
`step : WSState → Event → WSState`; the environment (browser/server)
chooses which events fire, subject to the guards inside each handler
(e.g. an `open` event can only fire on a socket still in the
`connecting` phase).  The fan-out to registered observer callbacks is
recorded as an event trace (`updateEvents`, `logEvents`), and each call
to the persistence collaborator `ApiService.updateTaskInHistory` is
recorded in `persistLog` while also being applied to the modelled
localStorage list `history`.
-/

namespace WSS

/-- String literals used by the wire protocol and task records
(`'status' | 'progress' | 'log' | 'completed' | 'failed'`). -/
def strStatus : String := "status"

def strProgress : String := "progress"

def strLog : String := "log"

def strCompleted : String := "completed"

def strFailed : String := "failed"

/-- Task record as stored in the `taskHistory` localStorage list
(interface `Task` of `@/config/api`, reconstructed from its uses in
`api.ts`, `websocket.ts`, `TaskTable` and `Dashboard`: fields
`id`, `name`, `status`, `created_at`, optional `completed_at`,
`progress`, `result`, `error`). -/
structure Task where
  id : String
  name : String
  status : String
  created_at : String
  completed_at : Option String
  progress : Option Nat
  result : Option String
  error : Option String
deriving Repr, DecidableEq

/-- A `Partial<Task>` update object as built by the service.
An outer `some` means the key is present in the object literal; for
`progress` / `result` / `error` the inner `Option` distinguishes a
defined value from a present-but-`undefined` one (JS object spread
overwrites a field even when the new value is `undefined`). -/
structure TaskPatch where
  status : Option String := none
  completed_at : Option String := none
  progress : Option (Option Nat) := none
  result : Option (Option String) := none
  error : Option (Option String) := none
deriving Repr, DecidableEq

/-- JS object spread `{ ...t, ...p }` for a task record and a patch:
every key present in the patch overwrites the record's field. -/
def mergeTask (t : Task) (p : TaskPatch) : Task :=
  { t with
    status := p.status.getD t.status
    completed_at :=
      match p.completed_at with
      | some v => some v
      | none => t.completed_at
    progress :=
      match p.progress with
      | some v => v
      | none => t.progress
    result :=
      match p.result with
      | some v => v
      | none => t.result
    error :=
      match p.error with
      | some v => v
      | none => t.error }

/-- `ApiService.updateTaskInHistory` (api.ts lines 111–119): find the
first record whose `id` matches, replace it by the spread-merge with the
updates, leave everything else alone; if no record matches, write
nothing.  The source uses `findIndex` plus an index assignment; this
structural recursion updates exactly the first match, which is the same
function. -/
def updateTaskInHistory : List Task → String → TaskPatch → List Task
  | [], _, _ => []
  | t :: rest, taskId, updates =>
    if t.id == taskId then mergeTask t updates :: rest
    else t :: updateTaskInHistory rest taskId updates

/-- First stored record for a task id (`history.find(t => t.id === taskId)`). -/
def findTask (history : List Task) (taskId : String) : Option Task :=
  history.find? (fun t => t.id == taskId)

/-- Lifecycle phase of one `WebSocket` object: `connecting` from
construction until its `open` event, `opened` after it, `errored` after
its `error` event fired, `done` once its `close` event has been
delivered. -/
inductive SockPhase
  | connecting
  | opened
  | errored
  | done
deriving Repr, DecidableEq

/-- One `WebSocket` object created by `connectToTask`.  `closeRequested`
records that the client called `ws.close(1000, ...)` (from
`disconnect`), so that the eventual `close` event carries code 1000. -/
structure Sock where
  tid : String
  phase : SockPhase
  closeRequested : Bool
deriving Repr, DecidableEq

/-- Association-list lookup for the `Map<string, _>` fields. -/
def mapLookup : List (String × Nat) → String → Option Nat
  | [], _ => none
  | (k, v) :: rest, key => if k == key then some v else mapLookup rest key

/-- `Map.set`: replace the first binding of the key, or append one. -/
def mapInsert : List (String × Nat) → String → Nat → List (String × Nat)
  | [], key, v => [(key, v)]
  | (k, w) :: rest, key, v =>
    if k == key then (key, v) :: rest else (k, w) :: mapInsert rest key v

/-- `Map.delete`: remove every binding of the key. -/
def mapErase : List (String × Nat) → String → List (String × Nat)
  | [], _ => []
  | (k, w) :: rest, key =>
    if k == key then mapErase rest key else (k, w) :: mapErase rest key

/-- Keys of a `Map<string, _>`. -/
def mapKeys (m : List (String × Nat)) : List String := m.map (fun p => p.1)

/-- Remove the first scheduled reconnect timer for a task id. -/
def removeFirstTimer : List (String × Nat) → String → List (String × Nat)
  | [], _ => []
  | (k, d) :: rest, key =>
    if k == key then rest else (k, d) :: removeFirstTimer rest key

/-- `private maxReconnectAttempts = 5` (websocket.ts line 27). -/
def maxReconnectAttempts : Nat := 5

/-- The backoff policy of `handleReconnection` (websocket.ts line 162):
`Math.min(1000 * Math.pow(2, attempts), 30000)` milliseconds. -/
def reconnectDelay (attempts : Nat) : Nat :=
  min (1000 * 2 ^ attempts) 30000

/-- State of one `WebSocketService` instance together with the traces
the claims observe.  `sockets` lists every `WebSocket` object ever
created, indexed by creation order; `connections`, `reconnectAttempts`
and `pollingIntervals` are the three private maps of the class;
`pendingReconnects` is the multiset of scheduled `setTimeout` reconnect
callbacks (task id and computed delay); `updateEvents` / `logEvents`
are the fan-out traces delivered to the registered task-update / log
observers; `parseErrors` counts the `console.error` in the `onmessage`
catch block; `history` is the localStorage `taskHistory` list and
`persistLog` records every call made to
`ApiService.updateTaskInHistory`. -/
structure WSState where
  sockets : List Sock
  connections : List (String × Nat)
  reconnectAttempts : List (String × Nat)
  pollingIntervals : List String
  pendingReconnects : List (String × Nat)
  updateEvents : List (String × TaskPatch)
  logEvents : List (String × Option String)
  parseErrors : Nat
  history : List Task
  persistLog : List (String × TaskPatch)
deriving Repr, DecidableEq

/-- The freshly constructed singleton service with empty storage. -/
def initState : WSState :=
  { sockets := []
    connections := []
    reconnectAttempts := []
    pollingIntervals := []
    pendingReconnects := []
    updateEvents := []
    logEvents := []
    parseErrors := 0
    history := []
    persistLog := [] }

/-- Wire message shape (interface `WebSocketMessage`). `data` is `any`
in the source; we model the fields each handler reads, every one
possibly `undefined`. -/
structure MsgData where
  status : Option String := none
  progress : Option Nat := none
  message : Option String := none
  result : Option String := none
  error : Option String := none
deriving Repr, DecidableEq

/-- Inbound `WebSocketMessage` after a successful `JSON.parse`. -/
structure WebSocketMessage where
  type : String
  task_id : String
  data : MsgData
  timestamp : String
deriving Repr, DecidableEq

/-- A raw frame on the wire: either it parses to a message or
`JSON.parse` throws. -/
inductive RawMsg
  | parsed (m : WebSocketMessage)
  | malformed
deriving Repr, DecidableEq

/-- `notifyTaskUpdate` (websocket.ts lines 227–238): fan the partial
update out to every registered task-update callback (recorded as one
trace entry — exceptions are caught per callback, so delivery is the
whole list) and then call `ApiService.updateTaskInHistory`. -/
def notifyTaskUpdate (s : WSState) (taskId : String) (updates : TaskPatch) : WSState :=
  { s with
    updateEvents := s.updateEvents ++ [(taskId, updates)]
    persistLog := s.persistLog ++ [(taskId, updates)]
    history := updateTaskInHistory s.history taskId updates }

/-- `notifyLog` (websocket.ts lines 241–249): fan the log line out to the
log callbacks.  No persistence call is made here. -/
def notifyLog (s : WSState) (taskId : String) (log : Option String) : WSState :=
  { s with logEvents := s.logEvents ++ [(taskId, log)] }

/-- `stopPolling` (websocket.ts lines 198–205): clear and drop the
polling interval for the task if one exists. -/
def stopPolling (s : WSState) (taskId : String) : WSState :=
  { s with pollingIntervals := s.pollingIntervals.filter (fun t => t != taskId) }

/-- `fallbackToPolling` (websocket.ts lines 172–195): no-op if a polling
interval already exists, otherwise register one. -/
def fallbackToPolling (s : WSState) (taskId : String) : WSState :=
  if s.pollingIntervals.contains taskId then s
  else { s with pollingIntervals := taskId :: s.pollingIntervals }

/-- `handleReconnection` (websocket.ts lines 153–169): read the attempt
counter (absent = 0); if it has reached `maxReconnectAttempts`, fall
back to polling; otherwise compute the backoff delay from the old
counter, store counter + 1, and schedule a `connectToTask` retry. -/
def handleReconnection (s : WSState) (taskId : String) : WSState :=
  let attempts := (mapLookup s.reconnectAttempts taskId).getD 0
  if attempts ≥ maxReconnectAttempts then
    fallbackToPolling s taskId
  else
    { s with
      reconnectAttempts := mapInsert s.reconnectAttempts taskId (attempts + 1)
      pendingReconnects := s.pendingReconnects ++ [(taskId, reconnectDelay attempts)] }

/-- `connectToTask` (websocket.ts lines 55–102): return at once if the
`connections` map already tracks the task; otherwise construct a new
`WebSocket` (which starts connecting — the map entry is only written by
its later `open` event).  The `catch` branch around the constructor is
unreachable in the model because constructing a socket object does not
throw here. -/
def connectToTask (s : WSState) (taskId : String) : WSState :=
  if (mapLookup s.connections taskId).isSome then s
  else { s with sockets := s.sockets ++ [⟨taskId, SockPhase.connecting, false⟩] }

/-- `disconnect` (websocket.ts lines 208–217): if the task is tracked,
call `close(1000)` on the tracked socket and delete the map entry; then
stop polling and delete the reconnect counter. -/
def disconnect (s : WSState) (taskId : String) : WSState :=
  let s1 :=
    match mapLookup s.connections taskId with
    | some sid =>
      { s with
        sockets :=
          match s.sockets.get? sid with
          | some sk => s.sockets.set sid { sk with closeRequested := true }
          | none => s.sockets
        connections := mapErase s.connections taskId }
    | none => s
  let s2 := stopPolling s1 taskId
  { s2 with reconnectAttempts := mapErase s2.reconnectAttempts taskId }

/-- `disconnectAll` (websocket.ts lines 220–224): `disconnect` every key
of the `connections` map.  The source iterates the live map while each
`disconnect` deletes exactly the key being visited and inserts nothing,
so iterating the snapshot of keys is the same computation. -/
def disconnectAll (s : WSState) : WSState :=
  (mapKeys s.connections).foldl disconnect s

/-- The update object built by the `'status'` case (lines 110–113):
`{ status: data.status, progress: data.progress }`. -/
def statusPatch (d : MsgData) : TaskPatch :=
  { status := d.status, progress := some d.progress }

/-- The update object built by the `'progress'` case (lines 117–119). -/
def progressPatch (d : MsgData) : TaskPatch :=
  { progress := some d.progress }

/-- The update object built by the `'completed'` case (lines 127–132):
status `completed`, completion timestamp `new Date().toISOString()`
(passed in as `tNow`), the result payload, and progress forced to 100. -/
def completedPatch (d : MsgData) (tNow : String) : TaskPatch :=
  { status := some strCompleted
    completed_at := some tNow
    result := some d.result
    progress := some (some 100) }

/-- The update object built by the `'failed'` case (lines 138–142): no
progress key. -/
def failedPatch (d : MsgData) (tNow : String) : TaskPatch :=
  { status := some strFailed
    completed_at := some tNow
    error := some d.error }

/-- `handleWebSocketMessage` (websocket.ts lines 105–150): switch on the
message type; `status`/`progress` dispatch a task update, `log`
dispatches a log line, `completed`/`failed` dispatch a terminal update
and then `disconnect` the task named in the message; unknown types are
logged and dropped. -/
def handleWebSocketMessage (s : WSState) (m : WebSocketMessage) (tNow : String) : WSState :=
  if m.type == strStatus then
    notifyTaskUpdate s m.task_id (statusPatch m.data)
  else if m.type == strProgress then
    notifyTaskUpdate s m.task_id (progressPatch m.data)
  else if m.type == strLog then
    notifyLog s m.task_id m.data.message
  else if m.type == strCompleted then
    disconnect (notifyTaskUpdate s m.task_id (completedPatch m.data tNow)) m.task_id
  else if m.type == strFailed then
    disconnect (notifyTaskUpdate s m.task_id (failedPatch m.data tNow)) m.task_id
  else s

/-- The `onopen` handler (lines 65–72), fired by the environment on a
socket still connecting and not intentionally closed: register the
socket in `connections`, delete the reconnect counter, stop polling. -/
def onOpen (s : WSState) (sid : Nat) : WSState :=
  match s.sockets.get? sid with
  | none => s
  | some sk =>
    if sk.phase == SockPhase.connecting && !sk.closeRequested then
      let s1 :=
        { s with
          sockets := s.sockets.set sid { sk with phase := SockPhase.opened }
          connections := mapInsert s.connections sk.tid sid
          reconnectAttempts := mapErase s.reconnectAttempts sk.tid }
      stopPolling s1 sk.tid
    else s

/-- The `onerror` handler (lines 93–96), fired by the environment at
most once per socket that has not been intentionally closed: invoke the
reconnection procedure. -/
def onError (s : WSState) (sid : Nat) : WSState :=
  match s.sockets.get? sid with
  | none => s
  | some sk =>
    if (sk.phase == SockPhase.connecting || sk.phase == SockPhase.opened)
        && !sk.closeRequested then
      handleReconnection
        { s with sockets := s.sockets.set sid { sk with phase := SockPhase.errored } }
        sk.tid
    else s

/-- The `onclose` handler (lines 83–91), fired once per socket; an
intentional `close(1000)` forces close code 1000, otherwise the
environment chooses the code.  The handler deletes the task's entry
from `connections` (whatever socket that entry currently points to) and
invokes reconnection unless the code is 1000. -/
def onClose (s : WSState) (sid : Nat) (code : Nat) : WSState :=
  match s.sockets.get? sid with
  | none => s
  | some sk =>
    if sk.phase != SockPhase.done then
      let c := if sk.closeRequested then 1000 else code
      let s1 :=
        { s with
          sockets := s.sockets.set sid { sk with phase := SockPhase.done }
          connections := mapErase s.connections sk.tid }
      if c != 1000 then handleReconnection s1 sk.tid else s1
    else s

/-- The `onmessage` handler (lines 74–81), fired by the environment on
an open socket: parse the raw frame; on success run the message switch,
on failure log the parse error and change nothing else. -/
def onMessage (s : WSState) (sid : Nat) (raw : RawMsg) (tNow : String) : WSState :=
  match s.sockets.get? sid with
  | none => s
  | some sk =>
    if sk.phase == SockPhase.opened && !sk.closeRequested then
      match raw with
      | RawMsg.parsed m => handleWebSocketMessage s m tNow
      | RawMsg.malformed => { s with parseErrors := s.parseErrors + 1 }
    else s

/-- A scheduled reconnect `setTimeout` callback firing (line 165): it
runs `connectToTask` for the captured task id.  Guarded on a pending
timer existing for the id. -/
def fireReconnectTimer (s : WSState) (taskId : String) : WSState :=
  if s.pendingReconnects.any (fun p => p.1 == taskId) then
    connectToTask
      { s with pendingReconnects := removeFirstTimer s.pendingReconnects taskId }
      taskId
  else s

/-- One tick of the polling `setInterval` callback (lines 179–192):
fetch the status (the environment supplies the result, `none` = the
fetch threw and was caught), dispatch it, and stop polling on a
terminal status. -/
def pollTick (s : WSState) (taskId : String) (fetched : Option TaskPatch) : WSState :=
  if s.pollingIntervals.contains taskId then
    match fetched with
    | none => s
    | some st =>
      let s1 := notifyTaskUpdate s taskId st
      if st.status == some strCompleted || st.status == some strFailed then
        stopPolling s1 taskId
      else s1
  else s

/-- The alphabet of the system: user calls on the service and
environment events (socket callbacks and timers). -/
inductive Event
  | userConnect (taskId : String)
  | userDisconnect (taskId : String)
  | userDisconnectAll
  | sockOpen (sid : Nat)
  | sockError (sid : Nat)
  | sockClose (sid : Nat) (code : Nat)
  | sockMessage (sid : Nat) (raw : RawMsg) (tNow : String)
  | timerFire (taskId : String)
  | pollTickEv (taskId : String) (fetched : Option TaskPatch)
deriving Repr, DecidableEq

/-- Total step function: each event runs its handler (handlers contain
their own guards and ignore events that cannot fire). -/
def step (s : WSState) : Event → WSState
  | Event.userConnect t => connectToTask s t
  | Event.userDisconnect t => disconnect s t
  | Event.userDisconnectAll => disconnectAll s
  | Event.sockOpen sid => onOpen s sid
  | Event.sockError sid => onError s sid
  | Event.sockClose sid code => onClose s sid code
  | Event.sockMessage sid raw tNow => onMessage s sid raw tNow
  | Event.timerFire t => fireReconnectTimer s t
  | Event.pollTickEv t fetched => pollTick s t fetched

/-- Run a sequence of events. -/
def run (s : WSState) (evs : List Event) : WSState := evs.foldl step s

end WSS


namespace WSS

/-! ### Generic lemmas about the map and list helpers -/

theorem mapLookup_mapErase_self (m : List (String × Nat)) (k : String) :
    mapLookup (mapErase m k) k = none := by
  induction m with
  | nil => rfl
  | cons e rest ih =>
    obtain ⟨k1, v1⟩ := e
    by_cases h : k1 = k
    · simpa [mapErase, h] using ih
    · simp [mapErase, mapLookup, h, ih]

theorem mapLookup_mapErase_ne (m : List (String × Nat)) (k t : String) (h : k ≠ t) :
    mapLookup (mapErase m k) t = mapLookup m t := by
  induction m with
  | nil => rfl
  | cons e rest ih =>
    obtain ⟨k1, v1⟩ := e
    by_cases h1 : k1 = k
    · subst h1
      simp [mapErase, mapLookup, h, ih]
    · by_cases h2 : k1 = t
      · subst h2
        simp [mapErase, mapLookup, h1]
      · simp [mapErase, mapLookup, h1, h2, ih]

theorem mapErase_eq_of_lookup_none (m : List (String × Nat)) (k : String)
    (h : mapLookup m k = none) : mapErase m k = m := by
  induction m with
  | nil => rfl
  | cons e rest ih =>
    obtain ⟨k1, v1⟩ := e
    by_cases h1 : k1 = k
    · simp [mapLookup, h1] at h
    · simp [mapLookup, h1] at h
      simp [mapErase, h1, ih h]

theorem mapLookup_mapInsert_ne (m : List (String × Nat)) (k t : String) (v : Nat)
    (h : k ≠ t) : mapLookup (mapInsert m k v) t = mapLookup m t := by
  induction m with
  | nil => simp [mapInsert, mapLookup, h]
  | cons e rest ih =>
    obtain ⟨k1, v1⟩ := e
    by_cases h1 : k1 = k
    · subst h1
      simp [mapInsert, mapLookup, h]
    · by_cases h2 : k1 = t
      · subst h2
        simp [mapInsert, mapLookup, h1]
      · simp [mapInsert, mapLookup, h1, h2, ih]

theorem mem_of_mem_mapErase (m : List (String × Nat)) (k : String)
    (e : String × Nat) (h : e ∈ mapErase m k) : e ∈ m ∧ e.1 ≠ k := by
  induction m with
  | nil => simp [mapErase] at h
  | cons f rest ih =>
    obtain ⟨k1, v1⟩ := f
    by_cases h1 : k1 = k
    · rw [mapErase, if_pos (by simpa using h1)] at h
      exact ⟨List.mem_cons_of_mem _ (ih h).1, (ih h).2⟩
    · rw [mapErase, if_neg (by simpa using h1)] at h
      rcases List.mem_cons.mp h with h2 | h2
      · subst h2
        exact ⟨List.mem_cons_self _ _, by simpa using h1⟩
      · exact ⟨List.mem_cons_of_mem _ (ih h2).1, (ih h2).2⟩

end WSS

namespace WSS

/-! ### Concrete inputs used by witnesses and counterexamples -/

/-- Sample task id. -/
def tA : String := "t"

/-- A task id matching no stored record. -/
def idZ : String := "zzz"

/-- Sample id of a second stored record. -/
def idB : String := "b"

/-- Sample timestamp string. -/
def tsA : String := "2026-01-01T00:00:00Z"

/-- Sample stored task record for id `tA`. -/
def taskA : Task :=
  { id := tA
    name := tA
    status := strStatus
    created_at := tsA
    completed_at := none
    progress := some 5
    result := none
    error := none }

/-- Sample stored task record for id `idB`. -/
def taskB : Task :=
  { id := idB
    name := idB
    status := strStatus
    created_at := tsA
    completed_at := none
    progress := none
    result := none
    error := none }

/-- Sample patch. -/
def patch0 : TaskPatch := { progress := some (some 42) }

/-- Sample stored history. -/
def hist0 : List Task := [taskA, taskB]

/-! ### C2 — backoff policy -/

/-- Claim C2: the reconnect delay of `handleReconnection` is the pure
function `min (1000 * 2 ^ n) 30000` milliseconds (`min (1 * 2^n) 30` in
seconds); it is uncapped for `n ≤ 4` (so `delay 0 = 1000` ms,
`delay 3 = 8000` ms), capped at 30000 ms for `n = 5`, non-decreasing in
the attempt count, and never exceeds the 30000 ms cap. -/
theorem C2_thm :
    (∀ n, n ≤ 4 → reconnectDelay n = 1000 * 2 ^ n) ∧
    reconnectDelay 0 = 1000 ∧
    reconnectDelay 3 = 8000 ∧
    reconnectDelay 5 = 30000 ∧
    (∀ m n, m ≤ n → reconnectDelay m ≤ reconnectDelay n) ∧
    (∀ n, reconnectDelay n ≤ 30000) := by
  refine ⟨?_, by decide, by decide, by decide, ?_, ?_⟩
  · intro n hn
    interval_cases n <;> decide
  · intro m n h
    unfold reconnectDelay
    exact min_le_min
      (Nat.mul_le_mul_left 1000 (Nat.pow_le_pow_right (by norm_num) h)) le_rfl
  · intro n
    exact min_le_right _ _

/-- Witness for C2 at concrete attempt counts. -/
theorem C2_witness :
    reconnectDelay 3 = 1000 * 2 ^ 3 ∧ reconnectDelay 2 ≤ reconnectDelay 7 :=
  ⟨C2_thm.1 3 (by decide), C2_thm.2.2.2.2.1 2 7 (by decide)⟩

/-! ### C10 — the persistence write-through only mutates an existing record -/

/-- Claim C10: `ApiService.updateTaskInHistory` never inserts: if no
stored record has the given id, the stored history is left completely
unchanged; and if some record has the id, exactly the first such record
is replaced by its spread-merge with the updates while every other
record (before and after it) is untouched. -/
theorem C10_thm :
    ∀ (history : List Task) (taskId : String) (updates : TaskPatch),
      ((∀ rec ∈ history, rec.id ≠ taskId) →
        updateTaskInHistory history taskId updates = history) ∧
      ((∃ rec ∈ history, rec.id = taskId) →
        ∃ pre x post,
          history = pre ++ x :: post ∧
          (∀ rec ∈ pre, rec.id ≠ taskId) ∧
          x.id = taskId ∧
          updateTaskInHistory history taskId updates =
            pre ++ mergeTask x updates :: post) := by
  intro history taskId updates
  induction history with
  | nil =>
    refine ⟨fun _ => rfl, ?_⟩
    rintro ⟨rec, hmem, -⟩
    exact absurd hmem (List.not_mem_nil rec)
  | cons t rest ih =>
    constructor
    · intro h
      have ht : t.id ≠ taskId := h t (List.mem_cons_self t rest)
      rw [updateTaskInHistory, if_neg (by simpa using ht),
        ih.1 (fun rec hrec => h rec (List.mem_cons_of_mem t hrec))]
    · intro hex
      by_cases ht : t.id = taskId
      · refine ⟨[], t, rest, rfl, by simp, ht, ?_⟩
        rw [updateTaskInHistory, if_pos (by simpa using ht)]
        rfl
      · have hex2 : ∃ rec ∈ rest, rec.id = taskId := by
          rcases hex with ⟨rec, hmem, hid⟩
          rcases List.mem_cons.mp hmem with h2 | h2
          · exact absurd (h2 ▸ hid) ht
          · exact ⟨rec, h2, hid⟩
        rcases ih.2 hex2 with ⟨pre, x, post, heq, hpre, hx, hupd⟩
        refine ⟨t :: pre, x, post, by rw [heq]; rfl, ?_, hx, ?_⟩
        · intro rec hrec
          rcases List.mem_cons.mp hrec with h2 | h2
          · exact h2 ▸ ht
          · exact hpre rec h2
        · rw [updateTaskInHistory, if_neg (by simpa using ht), hupd]
          rfl

/-- Witness for C10: updating an absent id leaves the sample history
unchanged, and updating `idB` rewrites exactly the second record. -/
theorem C10_witness :
    (updateTaskInHistory hist0 idZ patch0 = hist0) ∧
    (∃ pre x post,
      hist0 = pre ++ x :: post ∧
      (∀ rec ∈ pre, rec.id ≠ idB) ∧
      x.id = idB ∧
      updateTaskInHistory hist0 idB patch0 = pre ++ mergeTask x patch0 :: post) :=
  ⟨(C10_thm hist0 idZ patch0).1 (by decide),
   (C10_thm hist0 idB patch0).2 ⟨taskB, by decide, by decide⟩⟩

end WSS

namespace WSS

/-! ### Concrete event traces -/

/-- Two `connectToTask` calls for the same task issued before the first
connection's `open` event has fired, followed by both `open` events
(the browser opens each constructed socket). -/
def c1trace : List Event :=
  [Event.userConnect tA, Event.userConnect tA, Event.sockOpen 0, Event.sockOpen 1]

/-- One `connectToTask` call whose connection attempt fails, followed by
four scheduled retries that also fail: five failed connection attempts
in total, each failure delivered as one abnormal close (code 1006). -/
def c3five : List Event :=
  [Event.userConnect tA, Event.sockClose 0 1006,
   Event.timerFire tA, Event.sockClose 1 1006,
   Event.timerFire tA, Event.sockClose 2 1006,
   Event.timerFire tA, Event.sockClose 3 1006,
   Event.timerFire tA, Event.sockClose 4 1006]

/-- The same run continued with the fifth scheduled retry, which also
fails: six failed connection attempts in total. -/
def c3full : List Event :=
  c3five ++ [Event.timerFire tA, Event.sockClose 5 1006]

/-- Duplicate connections from the connecting window (sockets 0 and 1),
both of which open; socket 1 then dies and the three failed sockets
1, 2, 3 drive the reconnect counter to the maximum (each contributes an
`error` and an abnormal `close`), which activates the polling fallback
while socket 0 is still open. -/
def c5trace : List Event :=
  [Event.userConnect tA, Event.userConnect tA,
   Event.sockOpen 0, Event.sockOpen 1,
   Event.sockError 1, Event.sockClose 1 1006,
   Event.timerFire tA,
   Event.sockError 2, Event.sockClose 2 1006,
   Event.timerFire tA,
   Event.sockError 3, Event.sockClose 3 1006]

/-- Subscribe, let the connection open, unsubscribe, and deliver the
close event of the intentionally closed socket. -/
def c4trace : List Event :=
  [Event.userConnect tA, Event.sockOpen 0, Event.userDisconnect tA,
   Event.sockClose 0 1006]

/-- An inbound log message for task `tA`. -/
def logMsgA : WebSocketMessage :=
  { type := strLog, task_id := tA, data := { message := some tsA }, timestamp := tsA }

/-- Subscribe, open, then receive one log message. -/
def c8trace : List Event :=
  [Event.userConnect tA, Event.sockOpen 0,
   Event.sockMessage 0 (RawMsg.parsed logMsgA) tsA]

/-! ### C1 — one live channel per task: counterexample -/

/-- Claim C1 as stated is false: `connections` is only written by the
`open` handler, so a second `connectToTask` call issued before the
first connection's `open` event passes the `connections.has` guard and
constructs a second WebSocket for the same task; after both connections
open, two live connections for `tA` exist (the registry tracks only the
second). -/
theorem C1_counterexample :
    ((run initState c1trace).sockets.filter
      (fun sk => sk.tid == tA && sk.phase == SockPhase.opened)).length = 2 ∧
    mapLookup (run initState c1trace).connections tA = some 1 := by
  decide

/-! ### C3 — transition to polling: counterexample -/

/-- Claim C3 as stated is false: after exactly five failed connection
attempts for `tA` (the initial attempt plus four scheduled retries, each
failure one abnormal close), the task has NOT transitioned to the
polling fallback — a fifth retry is still scheduled and the reconnect
counter sits at the maximum. -/
theorem C3_counterexample :
    (run initState c3five).pollingIntervals.contains tA = false ∧
    (run initState c3five).pendingReconnects = [(tA, reconnectDelay 4)] ∧
    mapLookup (run initState c3five).reconnectAttempts tA = some 5 := by
  decide

/-! ### C5 — polling and push mutually exclusive: counterexample -/

/-- Claim C5's consequence is false: at the end of `c5trace` the polling
fallback is active for `tA` while a connection for `tA` (socket 0,
opened but no longer tracked) is still open — polling and push delivery
are simultaneously active for the same task. -/
theorem C5_counterexample :
    (run initState c5trace).pollingIntervals.contains tA = true ∧
    ((run initState c5trace).sockets.filter
      (fun sk => sk.tid == tA && sk.phase == SockPhase.opened
        && !sk.closeRequested)).length = 1 := by
  decide

/-! ### C8 — every dispatch persists: counterexample -/

/-- Claim C8 as stated is false for log events: delivering a log message
dispatches one log event to the log observers but makes no call to the
persistence collaborator (`notifyLog` never calls
`ApiService.updateTaskInHistory`). -/
theorem C8_counterexample :
    (run initState c8trace).logEvents = [(tA, some tsA)] ∧
    (run initState c8trace).persistLog = [] := by
  decide

/-! ### C9 — disconnectAll: counterexample -/

/-- Claim C9 as stated is false: after `c3full` the task `tA` is in the
polling fallback with no live connection, so it has no entry in
`connections`; `disconnectAll` iterates only `connections.keys()` and
therefore leaves both its polling timer and its reconnect counter
behind. -/
theorem C9_counterexample :
    (disconnectAll (run initState c3full)).pollingIntervals.contains tA = true ∧
    mapLookup (disconnectAll (run initState c3full)).reconnectAttempts tA = some 5 := by
  decide

end WSS

namespace WSS

/-! ### Effect of each operation on the `connections` registry -/

/-- Number of bindings a key has in a `Map` association list. -/
def keyCount (m : List (String × Nat)) (t : String) : Nat :=
  (m.filter (fun p => p.1 == t)).length

theorem keyCount_cons (a : String) (b : Nat) (rest : List (String × Nat)) (t : String) :
    keyCount ((a, b) :: rest) t = keyCount rest t + (if a == t then 1 else 0) := by
  by_cases h : a = t <;> simp [keyCount, h]

theorem keyCount_mapInsert_ne (m : List (String × Nat)) (k t : String) (v : Nat)
    (h : t ≠ k) : keyCount (mapInsert m k v) t = keyCount m t := by
  induction m with
  | nil => simp [mapInsert, keyCount_cons, keyCount, Ne.symm h]
  | cons e rest ih =>
    obtain ⟨k1, v1⟩ := e
    by_cases h1 : k1 = k
    · subst h1
      rw [mapInsert, if_pos (by simp), keyCount_cons, keyCount_cons]
    · rw [mapInsert, if_neg (by simpa using h1), keyCount_cons, keyCount_cons, ih]

theorem keyCount_mapInsert_le (m : List (String × Nat)) (k t : String) (v : Nat)
    (h : keyCount m t ≤ 1) : keyCount (mapInsert m k v) t ≤ 1 := by
  by_cases hkt : t = k
  · subst hkt
    induction m with
    | nil =>
      simp [mapInsert, keyCount_cons, keyCount]
    | cons e rest ih =>
      obtain ⟨k1, v1⟩ := e
      by_cases h1 : k1 = t
      · subst h1
        rw [mapInsert, if_pos (by simp)]
        rw [keyCount_cons] at h ⊢
        simp only [beq_self_eq_true, if_true] at h ⊢
        omega
      · rw [mapInsert, if_neg (by simpa using h1), keyCount_cons]
        rw [keyCount_cons] at h
        have hne : (k1 == t) = false := by simpa using h1
        simp only [hne, if_false] at h ⊢
        exact ih h
  · rw [keyCount_mapInsert_ne m k t v hkt]
    exact h

theorem keyCount_mapErase_le (m : List (String × Nat)) (k t : String) :
    keyCount (mapErase m k) t ≤ keyCount m t := by
  induction m with
  | nil => simp [mapErase]
  | cons e rest ih =>
    obtain ⟨k1, v1⟩ := e
    by_cases h1 : k1 = k
    · rw [mapErase, if_pos (by simpa using h1), keyCount_cons]
      exact le_trans ih (Nat.le_add_right _ _)
    · rw [mapErase, if_neg (by simpa using h1), keyCount_cons, keyCount_cons]
      exact Nat.add_le_add_right ih _

theorem notifyTaskUpdate_connections (s : WSState) (t : String) (p : TaskPatch) :
    (notifyTaskUpdate s t p).connections = s.connections := rfl

theorem connectToTask_connections (s : WSState) (t : String) :
    (connectToTask s t).connections = s.connections := by
  unfold connectToTask
  split <;> rfl

theorem fallbackToPolling_connections (s : WSState) (t : String) :
    (fallbackToPolling s t).connections = s.connections := by
  unfold fallbackToPolling
  split <;> rfl

theorem handleReconnection_connections (s : WSState) (t : String) :
    (handleReconnection s t).connections = s.connections := by
  unfold handleReconnection
  dsimp only
  split
  · exact fallbackToPolling_connections s t
  · rfl

theorem disconnect_connections (s : WSState) (t : String) :
    (disconnect s t).connections = mapErase s.connections t := by
  unfold disconnect stopPolling
  cases h : mapLookup s.connections t with
  | none => simp [h, mapErase_eq_of_lookup_none s.connections t h]
  | some sid => cases hs : s.sockets.get? sid <;> simp [h, hs]

theorem handleWebSocketMessage_connections (s : WSState) (m : WebSocketMessage)
    (tNow : String) :
    (handleWebSocketMessage s m tNow).connections = s.connections ∨
    (handleWebSocketMessage s m tNow).connections = mapErase s.connections m.task_id := by
  unfold handleWebSocketMessage
  repeat' split
  · left; rfl
  · left; rfl
  · left; rfl
  · right
    rw [disconnect_connections, notifyTaskUpdate_connections]
  · right
    rw [disconnect_connections, notifyTaskUpdate_connections]
  · left; rfl

/-- Every single step leaves the registry unchanged, inserts one
binding, erases one key, or (for `disconnectAll`) erases iteratively —
in all cases a registry with at most one binding per key keeps that
property. -/
theorem keyCount_le_one_step (s : WSState) (e : Event)
    (h : ∀ t, keyCount s.connections t ≤ 1) :
    ∀ t, keyCount (step s e).connections t ≤ 1 := by
  cases e with
  | userConnect t0 =>
    intro t
    rw [step, connectToTask_connections]
    exact h t
  | userDisconnect t0 =>
    intro t
    rw [step, disconnect_connections]
    exact le_trans (keyCount_mapErase_le _ _ _) (h t)
  | userDisconnectAll =>
    rw [step]
    unfold disconnectAll
    generalize mapKeys s.connections = ks
    induction ks generalizing s with
    | nil => exact h
    | cons k rest ih =>
      refine ih (disconnect s k) ?_
      intro t
      rw [disconnect_connections]
      exact le_trans (keyCount_mapErase_le _ _ _) (h t)
  | sockOpen sid =>
    intro t
    rw [step]
    unfold onOpen stopPolling
    cases hs : s.sockets.get? sid with
    | none => exact h t
    | some sk =>
      dsimp only
      split
      · exact keyCount_mapInsert_le _ _ _ _ (h t)
      · exact h t
  | sockError sid =>
    intro t
    rw [step]
    unfold onError
    cases hs : s.sockets.get? sid with
    | none => exact h t
    | some sk =>
      dsimp only
      split
      · rw [handleReconnection_connections]
        exact h t
      · exact h t
  | sockClose sid code =>
    intro t
    rw [step]
    unfold onClose
    cases hs : s.sockets.get? sid with
    | none => exact h t
    | some sk =>
      dsimp only
      split
      · repeat' split
        all_goals try rw [handleReconnection_connections]
        all_goals exact le_trans (keyCount_mapErase_le _ _ _) (h t)
      · exact h t
  | sockMessage sid raw tNow =>
    intro t
    rw [step]
    unfold onMessage
    cases hs : s.sockets.get? sid with
    | none => exact h t
    | some sk =>
      dsimp only
      split
      · cases raw with
        | parsed m =>
          rcases handleWebSocketMessage_connections s m tNow with hc | hc
          · rw [hc]; exact h t
          · rw [hc]
            exact le_trans (keyCount_mapErase_le _ _ _) (h t)
        | malformed => exact h t
      · exact h t
  | timerFire t0 =>
    intro t
    rw [step]
    unfold fireReconnectTimer
    split
    · rw [connectToTask_connections]
      exact h t
    · exact h t
  | pollTickEv t0 fetched =>
    intro t
    rw [step]
    unfold pollTick stopPolling
    split
    · cases fetched with
      | none => exact h t
      | some st =>
        dsimp only
        split <;> exact h t
    · exact h t

end WSS

namespace WSS

/-- A registry reachable from the initial state never holds two bindings
for one task id (auxiliary fold lemma). -/
theorem keyCount_le_one_run (evs : List Event) :
    ∀ (s : WSState), (∀ t, keyCount s.connections t ≤ 1) →
      ∀ t, keyCount (run s evs).connections t ≤ 1 := by
  induction evs with
  | nil => exact fun s h => h
  | cons e rest ih =>
    intro s h
    exact ih (step s e) (keyCount_le_one_step s e h)

/-! ### C1 — one live channel per task: amended -/

/-- Claim C1 (amended): a second `connectToTask` call for an
already-*tracked* task — one whose connection has opened and is
registered in the `connections` map — is a complete no-op and opens no
duplicate connection; and the registry never holds more than one
connection per task id in any reachable state.  (As originally stated
the claim is false: a second subscribe issued during the connecting
window, before the first `open` event registers the connection, creates
a duplicate socket — see the counterexample.) -/
theorem C1_amended_thm :
    (∀ (s : WSState) (taskId : String),
      (mapLookup s.connections taskId).isSome → connectToTask s taskId = s) ∧
    (∀ (evs : List Event) (taskId : String),
      keyCount (run initState evs).connections taskId ≤ 1) := by
  constructor
  · intro s t h
    unfold connectToTask
    rw [if_pos h]
  · intro evs t
    exact keyCount_le_one_run evs initState (fun t0 => by simp [initState, keyCount]) t

/-- Witness for C1 (amended) on the tracked state reached by one
subscribe plus its `open` event. -/
theorem C1_witness :
    connectToTask (run initState [Event.userConnect tA, Event.sockOpen 0]) tA
      = run initState [Event.userConnect tA, Event.sockOpen 0] ∧
    keyCount (run initState c1trace).connections tA ≤ 1 :=
  ⟨C1_amended_thm.1 (run initState [Event.userConnect tA, Event.sockOpen 0]) tA
      (by decide),
   C1_amended_thm.2 c1trace tA⟩

/-! ### C4 — intentional close never triggers reconnection -/

theorem not_mem_filter_ne_self (l : List String) (t : String) :
    t ∉ l.filter (fun x => x != t) := by
  intro h
  have := (List.mem_filter.mp h).2
  simp at this

theorem getq_set_self {α : Type} :
    ∀ (l : List α) (i : Nat) (a : α), i < l.length → (l.set i a).get? i = some a
  | _ :: _, 0, _, _ => rfl
  | _ :: bs, i + 1, a, h => getq_set_self bs i a (Nat.lt_of_succ_lt_succ h)
  | [], _, _, h => absurd h (by simp)

theorem disconnect_reconnectAttempts (s : WSState) (t : String) :
    (disconnect s t).reconnectAttempts = mapErase s.reconnectAttempts t := by
  unfold disconnect stopPolling
  cases h : mapLookup s.connections t with
  | none => simp [h]
  | some sid => cases hs : s.sockets.get? sid <;> simp [h, hs]

theorem disconnect_pollingIntervals (s : WSState) (t : String) :
    (disconnect s t).pollingIntervals = s.pollingIntervals.filter (fun x => x != t) := by
  unfold disconnect stopPolling
  cases h : mapLookup s.connections t with
  | none => simp [h]
  | some sid => cases hs : s.sockets.get? sid <;> simp [h, hs]

theorem disconnect_sockets_tracked (s : WSState) (t : String) (sid : Nat) (sk : Sock)
    (h : mapLookup s.connections t = some sid) (hg : s.sockets.get? sid = some sk) :
    (disconnect s t).sockets = s.sockets.set sid { sk with closeRequested := true } := by
  unfold disconnect stopPolling
  rw [List.get?_eq_getElem?] at hg
  simp [h, hg]

/-- Claim C4: `disconnect` closes the tracked socket with code 1000 and
clears the task's counter, polling timer and registry entry; and the
`onclose` handler of a socket whose close was requested by `disconnect`
(so its close event carries code 1000) never calls `handleReconnection`:
it leaves the reconnect counters, the scheduled reconnect timers and the
polling timers of every task exactly unchanged. -/
theorem C4_thm :
    ∀ (s : WSState) (taskId : String),
      mapLookup (disconnect s taskId).reconnectAttempts taskId = none ∧
      taskId ∉ (disconnect s taskId).pollingIntervals ∧
      mapLookup (disconnect s taskId).connections taskId = none ∧
      (∀ (sid : Nat) (sk : Sock),
        mapLookup s.connections taskId = some sid → s.sockets.get? sid = some sk →
          (disconnect s taskId).sockets.get? sid
            = some { sk with closeRequested := true }) ∧
      (∀ (s1 : WSState) (sid code : Nat) (sk : Sock),
        s1.sockets.get? sid = some sk → sk.closeRequested = true →
          (step s1 (Event.sockClose sid code)).reconnectAttempts
              = s1.reconnectAttempts ∧
            (step s1 (Event.sockClose sid code)).pendingReconnects
              = s1.pendingReconnects ∧
            (step s1 (Event.sockClose sid code)).pollingIntervals
              = s1.pollingIntervals) := by
  intro s t
  refine ⟨?_, ?_, ?_, ?_, ?_⟩
  · rw [disconnect_reconnectAttempts]
    exact mapLookup_mapErase_self _ _
  · rw [disconnect_pollingIntervals]
    exact not_mem_filter_ne_self _ _
  · rw [disconnect_connections]
    exact mapLookup_mapErase_self _ _
  · intro sid sk h hg
    rw [disconnect_sockets_tracked s t sid sk h hg]
    have hlen : sid < s.sockets.length := by
      rcases List.get?_eq_some.mp hg with ⟨hh, -⟩
      exact hh
    exact getq_set_self _ _ _ hlen
  · intro s1 sid code sk hget hreq
    rw [List.get?_eq_getElem?] at hget
    by_cases hph : sk.phase = SockPhase.done
    · simp [step, onClose, hget, hph]
    · simp [step, onClose, hget, hreq, hph]

/-- The state reached by subscribe → open → disconnect, used by the C4
witness. -/
def s4d : WSState :=
  disconnect (run initState [Event.userConnect tA, Event.sockOpen 0]) tA

/-- Witness for C4 on the concrete run subscribe → open → disconnect →
close event of the intentionally closed socket. -/
theorem C4_witness :
    mapLookup s4d.reconnectAttempts tA = none ∧
    (step s4d (Event.sockClose 0 1006)).pendingReconnects = s4d.pendingReconnects :=
  ⟨(C4_thm (run initState [Event.userConnect tA, Event.sockOpen 0]) tA).1,
   ((C4_thm (run initState [Event.userConnect tA, Event.sockOpen 0]) tA).2.2.2.2
      s4d 0 1006
      { tid := tA, phase := SockPhase.opened, closeRequested := true }
      (by decide) rfl).2.1⟩

end WSS

namespace WSS

/-! ### C5 — successful open resets the counter and cancels polling -/

/-- Claim C5 (amended): on every successful connection open for a task
the `onopen` handler deletes the task's reconnect counter (so it reads
as 0) and cancels any active polling timer for the task, so immediately
after a successful open the task is not polling.  (The original claim's
consequence — that polling fallback and push delivery are *never*
simultaneously active — is false: with duplicate connections from the
connecting-window race, the reconnect counter of the dead duplicates
can reach the maximum and activate polling while another connection for
the task is still open; see the counterexample.) -/
theorem C5_amended_thm :
    ∀ (s : WSState) (sid : Nat) (sk : Sock),
      s.sockets.get? sid = some sk →
      sk.phase = SockPhase.connecting →
      sk.closeRequested = false →
        mapLookup (step s (Event.sockOpen sid)).reconnectAttempts sk.tid = none ∧
        sk.tid ∉ (step s (Event.sockOpen sid)).pollingIntervals := by
  intro s sid sk hget hph hcr
  rw [List.get?_eq_getElem?] at hget
  constructor
  · simp only [step]
    unfold onOpen stopPolling
    simp [hget, hph, hcr, mapLookup_mapErase_self]
  · simp only [step]
    unfold onOpen stopPolling
    simp [hget, hph, hcr]

/-- The state reached by one subscribe, used by the C5 witness. -/
def s5c : WSState := run initState [Event.userConnect tA]

/-- Witness for C5 on the freshly created connecting socket 0. -/
theorem C5_witness :
    mapLookup (step s5c (Event.sockOpen 0)).reconnectAttempts tA = none ∧
    tA ∉ (step s5c (Event.sockOpen 0)).pollingIntervals :=
  C5_amended_thm s5c 0
    { tid := tA, phase := SockPhase.connecting, closeRequested := false }
    (by decide) rfl rfl

end WSS

namespace WSS

/-! ### C8 — dispatch and persistence -/

theorem disconnect_updateEvents (s : WSState) (t : String) :
    (disconnect s t).updateEvents = s.updateEvents := by
  unfold disconnect stopPolling
  cases h : mapLookup s.connections t with
  | none => simp [h]
  | some sid => cases hs : s.sockets.get? sid <;> simp [h, hs]

theorem disconnect_persistLog (s : WSState) (t : String) :
    (disconnect s t).persistLog = s.persistLog := by
  unfold disconnect stopPolling
  cases h : mapLookup s.connections t with
  | none => simp [h]
  | some sid => cases hs : s.sockets.get? sid <;> simp [h, hs]

theorem disconnect_history (s : WSState) (t : String) :
    (disconnect s t).history = s.history := by
  unfold disconnect stopPolling
  cases h : mapLookup s.connections t with
  | none => simp [h]
  | some sid => cases hs : s.sockets.get? sid <;> simp [h, hs]

theorem disconnect_logEvents (s : WSState) (t : String) :
    (disconnect s t).logEvents = s.logEvents := by
  unfold disconnect stopPolling
  cases h : mapLookup s.connections t with
  | none => simp [h]
  | some sid => cases hs : s.sockets.get? sid <;> simp [h, hs]

/-- Claim C8 (amended): every dispatch of a `status`, `progress`,
`completed` or `failed` event appends exactly one entry to the
task-update observer trace *and* makes exactly one call to
`ApiService.updateTaskInHistory` with the very same task id and payload
(applied to the stored history), so task-update observers and durable
state never diverge; but a `log` dispatch reaches the log observers
only — it makes no persistence call and leaves the stored history
untouched.  The mechanism is `notifyTaskUpdate`, which always appends
the same pair to the observer trace and to the persistence call log. -/
theorem C8_amended_thm :
    (∀ (s : WSState) (m : WebSocketMessage) (tNow : String),
      m.type = strStatus ∨ m.type = strProgress ∨
        m.type = strCompleted ∨ m.type = strFailed →
      ∃ p,
        (handleWebSocketMessage s m tNow).updateEvents
            = s.updateEvents ++ [(m.task_id, p)] ∧
          (handleWebSocketMessage s m tNow).persistLog
            = s.persistLog ++ [(m.task_id, p)] ∧
          (handleWebSocketMessage s m tNow).history
            = updateTaskInHistory s.history m.task_id p) ∧
    (∀ (s : WSState) (m : WebSocketMessage) (tNow : String),
      m.type = strLog →
        (handleWebSocketMessage s m tNow).logEvents
            = s.logEvents ++ [(m.task_id, m.data.message)] ∧
          (handleWebSocketMessage s m tNow).persistLog = s.persistLog ∧
          (handleWebSocketMessage s m tNow).updateEvents = s.updateEvents ∧
          (handleWebSocketMessage s m tNow).history = s.history) ∧
    (∀ (s : WSState) (taskId : String) (p : TaskPatch),
      (notifyTaskUpdate s taskId p).updateEvents = s.updateEvents ++ [(taskId, p)] ∧
        (notifyTaskUpdate s taskId p).persistLog = s.persistLog ++ [(taskId, p)]) := by
  refine ⟨?_, ?_, fun s t p => ⟨rfl, rfl⟩⟩
  · intro s m tNow h
    rcases h with h | h | h | h
    · exact ⟨statusPatch m.data, by
        simp [handleWebSocketMessage, h, notifyTaskUpdate, strStatus]⟩
    · exact ⟨progressPatch m.data, by
        simp [handleWebSocketMessage, h, notifyTaskUpdate, strStatus, strProgress]⟩
    · exact ⟨completedPatch m.data tNow, by
        simp [handleWebSocketMessage, h, notifyTaskUpdate,
          disconnect_updateEvents, disconnect_persistLog, disconnect_history,
          strStatus, strProgress, strLog, strCompleted]⟩
    · exact ⟨failedPatch m.data tNow, by
        simp [handleWebSocketMessage, h, notifyTaskUpdate,
          disconnect_updateEvents, disconnect_persistLog, disconnect_history,
          strStatus, strProgress, strLog, strCompleted, strFailed]⟩
  · intro s m tNow h
    refine ⟨?_, ?_, ?_, ?_⟩ <;>
      simp [handleWebSocketMessage, h, notifyLog, strStatus, strProgress, strLog]

/-- An inbound progress message for task `tA`. -/
def progMsg10 : WebSocketMessage :=
  { type := strProgress, task_id := tA, data := { progress := some 10 }, timestamp := tsA }

/-- Witness for C8 (amended) on a concrete progress message and a
concrete log message. -/
theorem C8_witness :
    (∃ p,
      (handleWebSocketMessage initState progMsg10 tsA).updateEvents
          = initState.updateEvents ++ [(progMsg10.task_id, p)] ∧
        (handleWebSocketMessage initState progMsg10 tsA).persistLog
          = initState.persistLog ++ [(progMsg10.task_id, p)] ∧
        (handleWebSocketMessage initState progMsg10 tsA).history
          = updateTaskInHistory initState.history progMsg10.task_id p) ∧
    ((handleWebSocketMessage initState logMsgA tsA).logEvents
        = initState.logEvents ++ [(logMsgA.task_id, logMsgA.data.message)] ∧
      (handleWebSocketMessage initState logMsgA tsA).persistLog
        = initState.persistLog ∧
      (handleWebSocketMessage initState logMsgA tsA).updateEvents
        = initState.updateEvents ∧
      (handleWebSocketMessage initState logMsgA tsA).history
        = initState.history) :=
  ⟨C8_amended_thm.1 initState progMsg10 tsA (Or.inr (Or.inl rfl)),
   C8_amended_thm.2.1 initState logMsgA tsA rfl⟩

end WSS

namespace WSS

/-! ### C9 — disconnectAll -/

theorem foldl_disconnect_connections_nil :
    ∀ (ks : List String) (s : WSState),
      (∀ e ∈ s.connections, e.1 ∈ ks) → (ks.foldl disconnect s).connections = [] := by
  intro ks
  induction ks with
  | nil =>
    intro s h
    cases hc : s.connections with
    | nil => simpa [run] using hc
    | cons e rest =>
      exact absurd (h e (hc ▸ List.mem_cons_self e rest)) (List.not_mem_nil e.1)
  | cons k rest ih =>
    intro s h
    show (rest.foldl disconnect (disconnect s k)).connections = []
    apply ih
    intro e he
    rw [disconnect_connections] at he
    rcases mem_of_mem_mapErase _ _ _ he with ⟨hmem, hne⟩
    rcases List.mem_cons.mp (h e hmem) with h1 | h1
    · exact absurd h1 hne
    · exact h1

theorem foldl_disconnect_preserves_cleared :
    ∀ (ks : List String) (s : WSState) (t : String),
      t ∉ s.pollingIntervals → mapLookup s.reconnectAttempts t = none →
        t ∉ (ks.foldl disconnect s).pollingIntervals ∧
          mapLookup (ks.foldl disconnect s).reconnectAttempts t = none := by
  intro ks
  induction ks with
  | nil => exact fun s t h1 h2 => ⟨h1, h2⟩
  | cons k rest ih =>
    intro s t h1 h2
    apply ih
    · rw [disconnect_pollingIntervals]
      exact fun hm => h1 (List.mem_filter.mp hm).1
    · rw [disconnect_reconnectAttempts]
      by_cases hk : k = t
      · subst hk
        exact mapLookup_mapErase_self _ _
      · rw [mapLookup_mapErase_ne _ _ _ hk]
        exact h2

theorem foldl_disconnect_cleared :
    ∀ (ks : List String) (s : WSState) (t : String), t ∈ ks →
      t ∉ (ks.foldl disconnect s).pollingIntervals ∧
        mapLookup (ks.foldl disconnect s).reconnectAttempts t = none := by
  intro ks
  induction ks with
  | nil => exact fun s t h => absurd h (List.not_mem_nil t)
  | cons k rest ih =>
    intro s t h
    by_cases htk : t ∈ rest
    · exact ih (disconnect s k) t htk
    · have htk2 : t = k := by
        rcases List.mem_cons.mp h with h1 | h1
        · exact h1
        · exact absurd h1 htk
      subst htk2
      exact foldl_disconnect_preserves_cleared rest (disconnect s t) t
        (by rw [disconnect_pollingIntervals]; exact not_mem_filter_ne_self _ _)
        (by rw [disconnect_reconnectAttempts]; exact mapLookup_mapErase_self _ _)

theorem foldl_disconnect_frame :
    ∀ (ks : List String) (s : WSState) (t : String), t ∉ ks →
      ((t ∈ (ks.foldl disconnect s).pollingIntervals ↔ t ∈ s.pollingIntervals) ∧
        mapLookup (ks.foldl disconnect s).reconnectAttempts t
          = mapLookup s.reconnectAttempts t) := by
  intro ks
  induction ks with
  | nil => exact fun s t _ => ⟨Iff.rfl, rfl⟩
  | cons k rest ih =>
    intro s t h
    have h1 : t ≠ k := fun hh => h (hh ▸ List.mem_cons_self k rest)
    have h2 : t ∉ rest := fun hh => h (List.mem_cons_of_mem k hh)
    have step1poll : t ∈ (disconnect s k).pollingIntervals ↔ t ∈ s.pollingIntervals := by
      rw [disconnect_pollingIntervals]
      constructor
      · exact fun hm => (List.mem_filter.mp hm).1
      · intro hm
        exact List.mem_filter.mpr ⟨hm, by simpa using h1⟩
    have step1att : mapLookup (disconnect s k).reconnectAttempts t
        = mapLookup s.reconnectAttempts t := by
      rw [disconnect_reconnectAttempts]
      exact mapLookup_mapErase_ne _ _ _ (Ne.symm h1)
    rcases ih (disconnect s k) t h2 with ⟨ihpoll, ihatt⟩
    exact ⟨ihpoll.trans step1poll, ihatt.trans step1att⟩

/-- Claim C9 (amended): `disconnectAll` disconnects every task with a
*tracked* live connection: afterwards the `connections` registry is
empty, and every task that had a registry entry has no polling timer
and no reconnect counter left.  Tasks with no registry entry — in
particular tasks in the polling fallback state, whose entry was removed
when their connection closed — are not visited: their polling timers
and reconnect counters survive unchanged (see the counterexample). -/
theorem C9_amended_thm :
    ∀ (s : WSState),
      (disconnectAll s).connections = [] ∧
      (∀ t, t ∈ mapKeys s.connections →
        t ∉ (disconnectAll s).pollingIntervals ∧
          mapLookup (disconnectAll s).reconnectAttempts t = none) ∧
      (∀ t, t ∉ mapKeys s.connections →
        ((t ∈ (disconnectAll s).pollingIntervals ↔ t ∈ s.pollingIntervals) ∧
          mapLookup (disconnectAll s).reconnectAttempts t
            = mapLookup s.reconnectAttempts t)) := by
  intro s
  refine ⟨?_, ?_, ?_⟩
  · apply foldl_disconnect_connections_nil
    intro e he
    exact List.mem_map_of_mem (fun p => p.1) he
  · exact fun t ht => foldl_disconnect_cleared (mapKeys s.connections) s t ht
  · exact fun t ht => foldl_disconnect_frame (mapKeys s.connections) s t ht

/-- The state with one tracked connection used by the C9 witness. -/
def s9 : WSState := run initState [Event.userConnect tA, Event.sockOpen 0]

/-- Witness for C9 (amended): `tA` is tracked in `s9` and gets fully
cleared; the unrelated id `idB` is untouched. -/
theorem C9_witness :
    (disconnectAll s9).connections = [] ∧
    (tA ∉ (disconnectAll s9).pollingIntervals ∧
      mapLookup (disconnectAll s9).reconnectAttempts tA = none) ∧
    ((idB ∈ (disconnectAll s9).pollingIntervals ↔ idB ∈ s9.pollingIntervals) ∧
      mapLookup (disconnectAll s9).reconnectAttempts idB
        = mapLookup s9.reconnectAttempts idB) :=
  ⟨(C9_amended_thm s9).1,
   (C9_amended_thm s9).2.1 tA (by decide),
   (C9_amended_thm s9).2.2 idB (by decide)⟩

end WSS

namespace WSS

/-! ### Message delivery step lemmas -/

theorem onMessage_progress (s : WSState) (sid : Nat) (sk : Sock)
    (t1 ts tN : String) (d : MsgData)
    (hget : s.sockets.get? sid = some sk) (hph : sk.phase = SockPhase.opened)
    (hcr : sk.closeRequested = false) :
    step s (Event.sockMessage sid (RawMsg.parsed ⟨strProgress, t1, d, ts⟩) tN)
      = notifyTaskUpdate s t1 (progressPatch d) := by
  rw [List.get?_eq_getElem?] at hget
  simp only [step]
  unfold onMessage
  simp [hget, hph, hcr, handleWebSocketMessage, strProgress, strStatus]

theorem onMessage_malformed (s : WSState) (sid : Nat) (sk : Sock) (tN : String)
    (hget : s.sockets.get? sid = some sk) (hph : sk.phase = SockPhase.opened)
    (hcr : sk.closeRequested = false) :
    step s (Event.sockMessage sid RawMsg.malformed tN)
      = { s with parseErrors := s.parseErrors + 1 } := by
  rw [List.get?_eq_getElem?] at hget
  simp only [step]
  unfold onMessage
  simp [hget, hph, hcr]

theorem onMessage_completed (s : WSState) (sid : Nat) (sk : Sock)
    (t1 ts tN : String) (d : MsgData)
    (hget : s.sockets.get? sid = some sk) (hph : sk.phase = SockPhase.opened)
    (hcr : sk.closeRequested = false) :
    step s (Event.sockMessage sid (RawMsg.parsed ⟨strCompleted, t1, d, ts⟩) tN)
      = disconnect (notifyTaskUpdate s t1 (completedPatch d tN)) t1 := by
  rw [List.get?_eq_getElem?] at hget
  simp only [step]
  unfold onMessage
  simp [hget, hph, hcr, handleWebSocketMessage,
    strProgress, strStatus, strLog, strCompleted]

/-- `mergeTask` never changes the record id. -/
theorem mergeTask_id (r : Task) (p : TaskPatch) : (mergeTask r p).id = r.id := rfl

/-- The write-through merges the update into exactly the record that
`find` sees. -/
theorem findTask_update (h : List Task) (tid : String) (p : TaskPatch) :
    findTask (updateTaskInHistory h tid p) tid
      = (findTask h tid).map (fun r => mergeTask r p) := by
  induction h with
  | nil => rfl
  | cons r rest ih =>
    by_cases hr : r.id = tid
    · simp [updateTaskInHistory, findTask, mergeTask_id, hr]
    · have hrb : (r.id == tid) = false := by simpa using hr
      simp only [updateTaskInHistory, if_neg (by simpa using hr)]
      simp only [findTask, List.find?_cons] at ih ⊢
      simp [hrb, ih]

end WSS

namespace WSS

/-! ### C7 — malformed messages are dropped without damage -/

/-- A valid progress message, one unparsable frame, a second valid
progress message, all delivered on socket `sid`. -/
def invalidBetween (sid : Nat) (t1 t2 : String) (d1 d2 : MsgData)
    (ts1 ts2 tN1 tN2 tN3 : String) : List Event :=
  [Event.sockMessage sid (RawMsg.parsed ⟨strProgress, t1, d1, ts1⟩) tN1,
   Event.sockMessage sid RawMsg.malformed tN2,
   Event.sockMessage sid (RawMsg.parsed ⟨strProgress, t2, d2, ts2⟩) tN3]

/-- Claim C7: a raw message that `JSON.parse` rejects only logs the
parse error (the error counter increments) and changes nothing else —
the channel is not closed and no map entry of any task is touched; and
feeding one unparsable raw message between two valid progress messages
delivers exactly the two valid events to the task-update observers, in
order, with one logged parse error, the socket list unchanged (the
channel stays open) and the connection/polling/reconnect state of every
task unchanged. -/
theorem C7_thm :
    ∀ (s : WSState) (sid : Nat) (sk : Sock) (t1 t2 : String) (d1 d2 : MsgData)
      (ts1 ts2 tN1 tN2 tN3 : String),
      s.sockets.get? sid = some sk →
      sk.phase = SockPhase.opened →
      sk.closeRequested = false →
        (step s (Event.sockMessage sid RawMsg.malformed tN2)
            = { s with parseErrors := s.parseErrors + 1 }) ∧
        (run s (invalidBetween sid t1 t2 d1 d2 ts1 ts2 tN1 tN2 tN3)).updateEvents
            = s.updateEvents ++ [(t1, progressPatch d1), (t2, progressPatch d2)] ∧
        (run s (invalidBetween sid t1 t2 d1 d2 ts1 ts2 tN1 tN2 tN3)).logEvents
            = s.logEvents ∧
        (run s (invalidBetween sid t1 t2 d1 d2 ts1 ts2 tN1 tN2 tN3)).parseErrors
            = s.parseErrors + 1 ∧
        (run s (invalidBetween sid t1 t2 d1 d2 ts1 ts2 tN1 tN2 tN3)).sockets
            = s.sockets ∧
        (run s (invalidBetween sid t1 t2 d1 d2 ts1 ts2 tN1 tN2 tN3)).connections
            = s.connections ∧
        (run s (invalidBetween sid t1 t2 d1 d2 ts1 ts2 tN1 tN2 tN3)).pollingIntervals
            = s.pollingIntervals ∧
        (run s (invalidBetween sid t1 t2 d1 d2 ts1 ts2 tN1 tN2 tN3)).reconnectAttempts
            = s.reconnectAttempts ∧
        (run s (invalidBetween sid t1 t2 d1 d2 ts1 ts2 tN1 tN2 tN3)).pendingReconnects
            = s.pendingReconnects := by
  intro s sid sk t1 t2 d1 d2 ts1 ts2 tN1 tN2 tN3 hget hph hcr
  refine ⟨onMessage_malformed s sid sk tN2 hget hph hcr, ?_, ?_, ?_, ?_, ?_, ?_, ?_, ?_⟩ <;>
  · have h1 := onMessage_progress s sid sk t1 ts1 tN1 d1 hget hph hcr
    have h2 := onMessage_malformed (notifyTaskUpdate s t1 (progressPatch d1))
      sid sk tN2 hget hph hcr
    have h3 := onMessage_progress
      { notifyTaskUpdate s t1 (progressPatch d1) with
        parseErrors := (notifyTaskUpdate s t1 (progressPatch d1)).parseErrors + 1 }
      sid sk t2 ts2 tN3 d2 hget hph hcr
    simp only [invalidBetween, run, List.foldl]
    rw [h1, h2, h3]
    simp [notifyTaskUpdate]

/-- The state with an open socket used by the C6/C7 witnesses. -/
def sOpen : WSState :=
  { initState with
    sockets := [{ tid := tA, phase := SockPhase.opened, closeRequested := false }]
    connections := [(tA, 0)]
    history := [taskA] }

/-- The open socket of `sOpen`. -/
def skOpen : Sock := { tid := tA, phase := SockPhase.opened, closeRequested := false }

/-- Sample message data with a defined progress value. -/
def msgDataP (n : Nat) : MsgData := { progress := some n }

/-- Witness for C7 on the concrete open-socket state. -/
theorem C7_witness :
    (step sOpen (Event.sockMessage 0 RawMsg.malformed tsA)
        = { sOpen with parseErrors := sOpen.parseErrors + 1 }) ∧
    (run sOpen (invalidBetween 0 tA tA (msgDataP 10) (msgDataP 50)
        tsA tsA tsA tsA tsA)).updateEvents
      = sOpen.updateEvents
          ++ [(tA, progressPatch (msgDataP 10)), (tA, progressPatch (msgDataP 50))] ∧
    (run sOpen (invalidBetween 0 tA tA (msgDataP 10) (msgDataP 50)
        tsA tsA tsA tsA tsA)).logEvents = sOpen.logEvents ∧
    (run sOpen (invalidBetween 0 tA tA (msgDataP 10) (msgDataP 50)
        tsA tsA tsA tsA tsA)).parseErrors = sOpen.parseErrors + 1 ∧
    (run sOpen (invalidBetween 0 tA tA (msgDataP 10) (msgDataP 50)
        tsA tsA tsA tsA tsA)).sockets = sOpen.sockets ∧
    (run sOpen (invalidBetween 0 tA tA (msgDataP 10) (msgDataP 50)
        tsA tsA tsA tsA tsA)).connections = sOpen.connections ∧
    (run sOpen (invalidBetween 0 tA tA (msgDataP 10) (msgDataP 50)
        tsA tsA tsA tsA tsA)).pollingIntervals = sOpen.pollingIntervals ∧
    (run sOpen (invalidBetween 0 tA tA (msgDataP 10) (msgDataP 50)
        tsA tsA tsA tsA tsA)).reconnectAttempts = sOpen.reconnectAttempts ∧
    (run sOpen (invalidBetween 0 tA tA (msgDataP 10) (msgDataP 50)
        tsA tsA tsA tsA tsA)).pendingReconnects = sOpen.pendingReconnects :=
  C7_thm sOpen 0 skOpen tA tA (msgDataP 10) (msgDataP 50)
    tsA tsA tsA tsA tsA rfl rfl rfl

end WSS

namespace WSS

/-! ### C6 — ordering and terminal persistence -/

/-- The inbound sequence [progress=10, progress=50, completed] on socket
`sid` for task `t`. -/
def c6msgs (sid : Nat) (t : String) (dC : MsgData)
    (ts1 ts2 ts3 tN1 tN2 tN : String) : List Event :=
  [Event.sockMessage sid (RawMsg.parsed ⟨strProgress, t, msgDataP 10, ts1⟩) tN1,
   Event.sockMessage sid (RawMsg.parsed ⟨strProgress, t, msgDataP 50, ts2⟩) tN2,
   Event.sockMessage sid (RawMsg.parsed ⟨strCompleted, t, dC, ts3⟩) tN]

/-- Claim C6: delivering [progress=10, progress=50, completed] on an
open channel dispatches exactly these three events, in this order, to
the task-update observers; the stored record for the task ends as the
three successive spread-merges, whose progress is 100 and whose
completion timestamp is set; and a `failed` message persists a patch
with no progress key, so progress is forced to 100 on `completed` only,
never on `failed`. -/
theorem C6_thm :
    ∀ (s : WSState) (sid : Nat) (sk : Sock) (t : String) (rec : Task)
      (dC : MsgData) (ts1 ts2 ts3 tN1 tN2 tN : String),
      s.sockets.get? sid = some sk →
      sk.phase = SockPhase.opened →
      sk.closeRequested = false →
      findTask s.history t = some rec →
        (run s (c6msgs sid t dC ts1 ts2 ts3 tN1 tN2 tN)).updateEvents
            = s.updateEvents
                ++ [(t, progressPatch (msgDataP 10)),
                    (t, progressPatch (msgDataP 50)),
                    (t, completedPatch dC tN)] ∧
        findTask (run s (c6msgs sid t dC ts1 ts2 ts3 tN1 tN2 tN)).history t
            = some (mergeTask
                (mergeTask (mergeTask rec (progressPatch (msgDataP 10)))
                  (progressPatch (msgDataP 50)))
                (completedPatch dC tN)) ∧
        (mergeTask
            (mergeTask (mergeTask rec (progressPatch (msgDataP 10)))
              (progressPatch (msgDataP 50)))
            (completedPatch dC tN)).progress = some 100 ∧
        (mergeTask
            (mergeTask (mergeTask rec (progressPatch (msgDataP 10)))
              (progressPatch (msgDataP 50)))
            (completedPatch dC tN)).completed_at = some tN ∧
        (∀ (s2 : WSState) (t2 ts tN2 : String) (d : MsgData),
          (handleWebSocketMessage s2 ⟨strFailed, t2, d, ts⟩ tN2).history
            = updateTaskInHistory s2.history t2 (failedPatch d tN2)) ∧
        (failedPatch dC tN).progress = none ∧
        (∀ r : Task, (mergeTask r (failedPatch dC tN)).progress = r.progress) := by
  intro s sid sk t rec dC ts1 ts2 ts3 tN1 tN2 tN hget hph hcr hrec
  have h1 := onMessage_progress s sid sk t ts1 tN1 (msgDataP 10) hget hph hcr
  have h2 := onMessage_progress (notifyTaskUpdate s t (progressPatch (msgDataP 10)))
    sid sk t ts2 tN2 (msgDataP 50) hget hph hcr
  have h3 := onMessage_completed
    (notifyTaskUpdate (notifyTaskUpdate s t (progressPatch (msgDataP 10))) t
      (progressPatch (msgDataP 50)))
    sid sk t ts3 tN dC hget hph hcr
  refine ⟨?_, ?_, rfl, rfl, ?_, rfl, fun r => rfl⟩
  · simp only [c6msgs, run, List.foldl]
    rw [h1, h2, h3, disconnect_updateEvents]
    simp [notifyTaskUpdate]
  · simp only [c6msgs, run, List.foldl]
    rw [h1, h2, h3, disconnect_history]
    show findTask
      (updateTaskInHistory
        (updateTaskInHistory (updateTaskInHistory s.history t _) t _) t _) t = _
    rw [findTask_update, findTask_update, findTask_update, hrec]
    rfl
  · intro s2 t2 ts tN2 d
    simp [handleWebSocketMessage, strStatus, strProgress, strLog, strCompleted,
      strFailed, disconnect_history, notifyTaskUpdate]

/-- Sample payload of the completed message (a result string and a
toast message). -/
def dataC : MsgData := { result := some tsA, message := some tsA }

/-- Witness for C6 on the concrete open-socket state with `taskA`
stored. -/
theorem C6_witness :
    (run sOpen (c6msgs 0 tA dataC tsA tsA tsA tsA tsA tsA)).updateEvents
        = sOpen.updateEvents
            ++ [(tA, progressPatch (msgDataP 10)),
                (tA, progressPatch (msgDataP 50)),
                (tA, completedPatch dataC tsA)] ∧
    findTask (run sOpen (c6msgs 0 tA dataC tsA tsA tsA tsA tsA tsA)).history tA
        = some (mergeTask
            (mergeTask (mergeTask taskA (progressPatch (msgDataP 10)))
              (progressPatch (msgDataP 50)))
            (completedPatch dataC tsA)) ∧
    (mergeTask
        (mergeTask (mergeTask taskA (progressPatch (msgDataP 10)))
          (progressPatch (msgDataP 50)))
        (completedPatch dataC tsA)).progress = some 100 ∧
    (mergeTask
        (mergeTask (mergeTask taskA (progressPatch (msgDataP 10)))
          (progressPatch (msgDataP 50)))
        (completedPatch dataC tsA)).completed_at = some tsA ∧
    (∀ (s2 : WSState) (t2 ts tN2 : String) (d : MsgData),
      (handleWebSocketMessage s2 ⟨strFailed, t2, d, ts⟩ tN2).history
        = updateTaskInHistory s2.history t2 (failedPatch d tN2)) ∧
    (failedPatch dataC tsA).progress = none ∧
    (∀ r : Task, (mergeTask r (failedPatch dataC tsA)).progress = r.progress) :=
  C6_thm sOpen 0 skOpen tA taskA dataC tsA tsA tsA tsA tsA tsA
    rfl rfl rfl (by decide)

end WSS

namespace WSS

/-! ### C3 — after the reconnect budget is exhausted -/

/-- No reconnect resource for task `t` is left: no scheduled reconnect
timer, no socket for `t` that could still fire events (every one is
`done`), no registry entry.  In such a state nothing but an explicit
new `connectToTask` call for `t` can ever create a connection or
schedule a reconnect for `t` again. -/
def Dormant (t : String) (s : WSState) : Prop :=
  (∀ p ∈ s.pendingReconnects, p.1 ≠ t) ∧
  (∀ sk ∈ s.sockets, sk.tid = t → sk.phase = SockPhase.done) ∧
  mapLookup s.connections t = none

instance (t : String) (s : WSState) : Decidable (Dormant t s) := by
  unfold Dormant
  infer_instance

theorem noLive_set (l : List Sock) (t : String) (sid : Nat) (y : Sock)
    (h : ∀ x ∈ l, x.tid = t → x.phase = SockPhase.done)
    (hy : y.tid = t → y.phase = SockPhase.done) :
    ∀ x ∈ l.set sid y, x.tid = t → x.phase = SockPhase.done := by
  induction l generalizing sid with
  | nil =>
    intro x hx
    simp at hx
  | cons a rest ih =>
    cases sid with
    | zero =>
      intro x hx
      rw [List.set_cons_zero] at hx
      rcases List.mem_cons.mp hx with h1 | h1
      · subst h1
        exact hy
      · exact h x (List.mem_cons_of_mem a h1)
    | succ n =>
      intro x hx
      rw [List.set_cons_succ] at hx
      rcases List.mem_cons.mp hx with h1 | h1
      · subst h1
        exact h x (List.mem_cons_self x rest)
      · exact ih n (fun z hz hz2 => h z (List.mem_cons_of_mem a hz) hz2) x h1

theorem mem_removeFirstTimer (l : List (String × Nat)) (k : String)
    (p : String × Nat) (h : p ∈ removeFirstTimer l k) : p ∈ l := by
  induction l with
  | nil => simp [removeFirstTimer] at h
  | cons e rest ih =>
    obtain ⟨k1, d1⟩ := e
    by_cases h1 : k1 = k
    · rw [removeFirstTimer, if_pos (by simpa using h1)] at h
      exact List.mem_cons_of_mem _ h
    · rw [removeFirstTimer, if_neg (by simpa using h1)] at h
      rcases List.mem_cons.mp h with h2 | h2
      · exact h2 ▸ List.mem_cons_self _ _
      · exact List.mem_cons_of_mem _ (ih h2)

theorem disconnect_pendingReconnects (s : WSState) (t : String) :
    (disconnect s t).pendingReconnects = s.pendingReconnects := by
  unfold disconnect stopPolling
  cases h : mapLookup s.connections t with
  | none => simp [h]
  | some sid => cases hs : s.sockets.get? sid <;> simp [h, hs]

theorem disconnect_sockets_cases (s : WSState) (t : String) :
    (disconnect s t).sockets = s.sockets ∨
    ∃ sid sk, s.sockets.get? sid = some sk ∧
      (disconnect s t).sockets = s.sockets.set sid { sk with closeRequested := true } := by
  unfold disconnect stopPolling
  cases h : mapLookup s.connections t with
  | none => left; simp [h]
  | some sid =>
    cases hs : s.sockets.get? sid with
    | none =>
      left
      rw [List.get?_eq_getElem?] at hs
      simp [h, hs]
    | some sk =>
      right
      refine ⟨sid, sk, hs, ?_⟩
      rw [List.get?_eq_getElem?] at hs
      simp [h, hs]

theorem dormant_disconnect (s : WSState) (t k : String) (h : Dormant t s) :
    Dormant t (disconnect s k) := by
  obtain ⟨h1, h2, h3⟩ := h
  refine ⟨?_, ?_, ?_⟩
  · rw [disconnect_pendingReconnects]
    exact h1
  · rcases disconnect_sockets_cases s k with hc | ⟨sid, sk, hg, hc⟩
    · rw [hc]
      exact h2
    · rw [hc]
      exact noLive_set s.sockets t sid _ h2
        (fun htid => h2 sk (List.get?_mem hg) htid)
  · rw [disconnect_connections]
    by_cases hk : k = t
    · subst hk
      exact mapLookup_mapErase_self _ _
    · rw [mapLookup_mapErase_ne _ _ _ hk]
      exact h3

theorem dormant_handleReconnection (s : WSState) (t tid : String)
    (h : Dormant t s) (hne : tid ≠ t) : Dormant t (handleReconnection s tid) := by
  obtain ⟨h1, h2, h3⟩ := h
  unfold handleReconnection
  dsimp only
  split
  · unfold fallbackToPolling
    split
    · exact ⟨h1, h2, h3⟩
    · exact ⟨h1, h2, h3⟩
  · refine ⟨?_, h2, h3⟩
    intro p hp
    rcases List.mem_append.mp hp with hp | hp
    · exact h1 p hp
    · have := List.mem_singleton.mp hp
      subst this
      exact hne

theorem dormant_connectToTask (s : WSState) (t tid : String)
    (h : Dormant t s) (hne : tid ≠ t) : Dormant t (connectToTask s tid) := by
  obtain ⟨h1, h2, h3⟩ := h
  unfold connectToTask
  split
  · exact ⟨h1, h2, h3⟩
  · refine ⟨h1, ?_, h3⟩
    intro sk hsk htid
    rcases List.mem_append.mp hsk with hsk | hsk
    · exact h2 sk hsk htid
    · have := List.mem_singleton.mp hsk
      subst this
      exact absurd htid hne

theorem dormant_handleWebSocketMessage (s : WSState) (t : String)
    (m : WebSocketMessage) (tNow : String) (h : Dormant t s) :
    Dormant t (handleWebSocketMessage s m tNow) := by
  unfold handleWebSocketMessage
  repeat' split
  · exact h
  · exact h
  · exact h
  · exact dormant_disconnect _ t _ h
  · exact dormant_disconnect _ t _ h
  · exact h

end WSS

namespace WSS

theorem dormant_foldl_disconnect (ks : List String) :
    ∀ (s : WSState) (t : String), Dormant t s → Dormant t (ks.foldl disconnect s) := by
  induction ks with
  | nil => exact fun s t h => h
  | cons k rest ih =>
    exact fun s t h => ih (disconnect s k) t (dormant_disconnect s t k h)

/-- Dormancy for `t` is preserved by every event except an explicit new
`connectToTask t` call: no reconnect attempt for `t` can ever fire
again. -/
theorem dormant_step (s : WSState) (t : String) (e : Event)
    (h : Dormant t s) (he : e ≠ Event.userConnect t) : Dormant t (step s e) := by
  cases e with
  | userConnect tid =>
    exact dormant_connectToTask s t tid h (fun hh => he (by rw [hh]))
  | userDisconnect tid =>
    exact dormant_disconnect s t tid h
  | userDisconnectAll =>
    exact dormant_foldl_disconnect _ s t h
  | sockOpen sid =>
    simp only [step]
    unfold onOpen
    split
    · exact h
    · rename_i sk hg
      split
      · rename_i hguard
        by_cases htid : sk.tid = t
        · have hdone := h.2.1 sk (List.get?_mem hg) htid
          rw [hdone] at hguard
          simp at hguard
        · refine ⟨h.1, ?_, ?_⟩
          · exact noLive_set s.sockets t sid _ h.2.1 (fun hh => absurd hh htid)
          · show mapLookup (mapInsert s.connections sk.tid sid) t = none
            rw [mapLookup_mapInsert_ne _ _ _ _ htid]
            exact h.2.2
      · exact h
  | sockError sid =>
    simp only [step]
    unfold onError
    split
    · exact h
    · rename_i sk hg
      split
      · rename_i hguard
        by_cases htid : sk.tid = t
        · have hdone := h.2.1 sk (List.get?_mem hg) htid
          rw [hdone] at hguard
          simp at hguard
        · exact dormant_handleReconnection _ t sk.tid
            ⟨h.1, noLive_set s.sockets t sid _ h.2.1 (fun hh => absurd hh htid),
              h.2.2⟩ htid
      · exact h
  | sockClose sid code =>
    simp only [step]
    unfold onClose
    split
    · exact h
    · rename_i sk hg
      dsimp only
      split
      · rename_i hguard
        by_cases htid : sk.tid = t
        · have hdone := h.2.1 sk (List.get?_mem hg) htid
          rw [hdone] at hguard
          simp at hguard
        · have hd1 : Dormant t
              { s with
                sockets := s.sockets.set sid { sk with phase := SockPhase.done }
                connections := mapErase s.connections sk.tid } :=
            ⟨h.1, noLive_set s.sockets t sid _ h.2.1 (fun _ => rfl),
              by rw [mapLookup_mapErase_ne _ _ _ htid]; exact h.2.2⟩
          repeat' split
          all_goals first
            | exact dormant_handleReconnection _ t sk.tid hd1 htid
            | exact hd1
      · exact h
  | sockMessage sid raw tNow =>
    simp only [step]
    unfold onMessage
    split
    · exact h
    · rename_i sk hg
      split
      · cases raw with
        | parsed m => exact dormant_handleWebSocketMessage _ t m tNow h
        | malformed => exact h
      · exact h
  | timerFire tid =>
    simp only [step]
    unfold fireReconnectTimer
    split
    · rename_i hany
      by_cases htid : tid = t
      · subst htid
        exfalso
        rcases List.any_eq_true.mp hany with ⟨p, hp, hpt⟩
        exact h.1 p hp (by simpa using hpt)
      · refine dormant_connectToTask _ t tid ⟨?_, h.2.1, h.2.2⟩ htid
        intro p hp
        exact h.1 p (mem_removeFirstTimer _ _ _ hp)
    · exact h
  | pollTickEv tid fetched =>
    simp only [step]
    unfold pollTick stopPolling
    repeat' split
    all_goals exact h

theorem dormant_run (evs : List Event) :
    ∀ (s : WSState) (t : String), Dormant t s →
      (∀ e ∈ evs, e ≠ Event.userConnect t) → Dormant t (run s evs) := by
  induction evs with
  | nil => exact fun s t h _ => h
  | cons e rest ih =>
    intro s t h hne
    exact ih (step s e) t
      (dormant_step s t e h (hne e (List.mem_cons_self e rest)))
      (fun e2 he2 => hne e2 (List.mem_cons_of_mem e he2))

/-- Claim C3 (amended): the task transitions to the polling fallback
not after 5 but after 6 failed connection attempts — the initial
attempt plus the 5 scheduled reconnect attempts allowed by
`maxReconnectAttempts` (equivalently: after exactly 5 failed *reconnect*
attempts, when the counter has reached the maximum); at that point the
counter sits at the maximum, no reconnect timer is pending, no live
socket for the task exists and the registry holds no entry for it, and
from then on every event other than an explicit new `connectToTask`
call for the task preserves that dormant state — no further reconnect
attempt to the live channel ever occurs for the task. -/
theorem C3_amended_thm :
    ((run initState c3full).pollingIntervals = [tA] ∧
      mapLookup (run initState c3full).reconnectAttempts tA
        = some maxReconnectAttempts ∧
      Dormant tA (run initState c3full)) ∧
    (∀ (s : WSState) (t : String) (evs : List Event),
      Dormant t s → (∀ e ∈ evs, e ≠ Event.userConnect t) →
        Dormant t (run s evs)) := by
  constructor
  · exact ⟨by decide, by decide, by decide⟩
  · exact fun s t evs h hne => dormant_run evs s t h hne

/-- Witness for C3 (amended): the dormant state reached by `c3full`
stays dormant under further disconnects, stray timer callbacks and poll
ticks. -/
theorem C3_witness :
    Dormant tA (run (run initState c3full)
      [Event.userDisconnect tA, Event.timerFire tA, Event.pollTickEv tA none]) :=
  C3_amended_thm.2 (run initState c3full) tA
    [Event.userDisconnect tA, Event.timerFire tA, Event.pollTickEv tA none]
    (by decide) (by decide)

end WSS
